import Mathlib

/-!
# Verification of the spendwisely server core (src/server.py)

Shallow embedding of the Python server in Lean 4.

Conventions of the embedding:
* Python/JSON values are modelled by `PyVal`; Python floats by `ℚ` (the
  valuation claims are about exact arithmetic structure, not binary
  rounding); a Python number that may be an `int` or a `float` is a tagged
  `PyNum` (the `total_value` accumulator in `get_portfolio` starts life as
  the int literal `0`, so the tag is observable).
* A file on disk is `Option (Option α)`: `none` = the file does not exist,
  `some none` = it exists but fails to parse, `some (some a)` = it parses
  to `a`.  `json.dump` followed by `json.load` (resp. `yaml.dump` /
  `yaml.safe_load`) is modelled as the identity on parsed values.
* Network calls and the external sync subprocess are modelled by oracles
  passed as arguments: a price lookup `PyVal → Option (ℚ × String)`
  (`none` collapses every failure mode caught by the per-holding
  `try/except`: network error, malformed response, empty `data`), an
  OTP-verification response, and a sync outcome.
* A Python function that may raise is embedded as `Except PyErr _` /
  `Except (ℕ × String) _` (the latter for `fastapi.HTTPException`,
  carrying status code and detail); a function whose body catches every
  exception is embedded as a total function.
-/

/-- Python runtime errors that the embedded code can raise. -/
inductive PyErr where
  | typeError
  | keyError
  | valueError
deriving DecidableEq, Repr

/-- JSON/Python values as produced by `json.load` / consumed by `json.dump`. -/
inductive PyVal where
  | pstr (s : String)
  | pnum (q : ℚ)
  | pbool (b : Bool)
  | pnull
  | plist (xs : List PyVal)
  | pdict (fields : List (String × PyVal))

/-- A Python number tagged `int` or `float`.  `round(x, 2)` returns an `int`
when `x` is an `int` and a `float` when `x` is a `float`, so the tag is
observable in `get_portfolio`'s `total_value`. -/
inductive PyNum where
  | i (n : ℤ)
  | f (q : ℚ)
deriving DecidableEq, Repr

/-- The numeric value of a tagged Python number. -/
def PyNum.toQ : PyNum → ℚ
  | .i n => n
  | .f q => q

/-- Round half to even to an integer (Python `round` tie-breaking). -/
def roundHalfEven (q : ℚ) : ℤ :=
  if q - ⌊q⌋ < 1 / 2 then ⌊q⌋
  else if 1 / 2 < q - ⌊q⌋ then ⌊q⌋ + 1
  else if ⌊q⌋ % 2 = 0 then ⌊q⌋ else ⌊q⌋ + 1

/-- Python `round(q, 2)` on a float, at the level of exact rationals. -/
def pyRound2 (q : ℚ) : ℚ := (roundHalfEven (q * 100) : ℚ) / 100

/-- Python `round(x, 2)` on a tagged number: an int rounds to itself (and
stays an int), a float rounds to two decimals (and stays a float). -/
def pyRoundNum : PyNum → PyNum
  | .i n => .i n
  | .f q => .f (pyRound2 q)

/-- Python `d[k]`: a key lookup on a dict; any other receiver raises
`TypeError`, a missing key raises `KeyError`. -/
def getItem : PyVal → String → Except PyErr PyVal
  | .pdict fields, k =>
    match fields.lookup k with
    | some v => .ok v
    | none => .error .keyError
  | _, _ => .error .typeError

/-- Digits of a decimal literal as a natural number. -/
def digitsVal (cs : List Char) : ℕ :=
  cs.foldl (fun a c => a * 10 + (c.toNat - 48)) 0

/-- The plain-decimal fragment of Python `float(str)`: optional sign,
digits, optional point and fraction digits; anything else is a
`ValueError`.  (Exponents, `inf`, `nan` and surrounding whitespace are not
exercised by any claim.) -/
def parseDecimal (s : String) : Option ℚ :=
  let cs := s.toList
  let signed : ℚ × List Char :=
    match cs with
    | '-' :: rest => (-1, rest)
    | '+' :: rest => (1, rest)
    | _ => (1, cs)
  let intPart := signed.2.takeWhile Char.isDigit
  let rest := signed.2.dropWhile Char.isDigit
  match rest with
  | [] => if intPart.isEmpty then none else some (signed.1 * digitsVal intPart)
  | '.' :: frac =>
    if frac.all Char.isDigit && !(intPart.isEmpty && frac.isEmpty) then
      some (signed.1 * ((digitsVal intPart : ℚ) + (digitsVal frac : ℚ) / 10 ^ frac.length))
    else none
  | _ => none

/-- Python `float(v)`: numbers and bools convert, decimal strings parse
(else `ValueError`), anything else raises `TypeError`. -/
def pyFloat : PyVal → Except PyErr ℚ
  | .pnum q => .ok q
  | .pbool b => .ok (if b then 1 else 0)
  | .pstr s =>
    match parseDecimal s with
    | some q => .ok q
    | none => .error .valueError
  | _ => .error .typeError

/-- Python `for x in v`: lists iterate their elements, dicts their keys,
strings their characters; other values raise `TypeError`. -/
def pyIter : PyVal → Except PyErr (List PyVal)
  | .plist xs => .ok xs
  | .pdict fields => .ok (fields.map fun kv => .pstr kv.1)
  | .pstr s => .ok (s.toList.map fun c => .pstr (String.mk [c]))
  | _ => .error .typeError

/-- A file on disk: `none` missing, `some none` unparsable, `some (some a)`
parses to `a`. -/
abbrev FileState (α : Type) := Option (Option α)

-- ## Holdings Store (src/server.py lines 31-42)

/-- The holdings file: JSON text that parses to a `PyVal`. -/
abbrev HoldingsFile := FileState PyVal

/-- `load_holdings` (lines 31-38): returns the parsed JSON if the file
exists and parses, and the empty Python list both when the file is missing
and when parsing raises (the bare `except` swallows everything); total, so
it never raises. -/
def load_holdings : HoldingsFile → PyVal
  | some (some v) => v
  | some none => .plist []
  | none => .plist []

/-- `save_holdings` (lines 40-42): opens the file in `"w"` mode and dumps
`holdings`, replacing whatever was there; the prior state is ignored. -/
def save_holdings (holdings : PyVal) (_prior : HoldingsFile) : HoldingsFile :=
  some (some holdings)

-- ## Token State (src/server.py lines 44-66, 130-133)

/-- The parsed content of `unfold_config.yaml`.  `get_unfold_token` reads
it via `config.get('token', {}).get('access')`, so the nested keys may be
absent: they are `Option`s. -/
structure UnfoldConfig where
  token_access : Option String
  token_refresh : Option String
  fold_user_uuid : Option String
  device_hash : String
deriving DecidableEq, Repr

abbrev ConfigFile := FileState UnfoldConfig

/-- `save_unfold_config` (lines 44-56): writes a fresh config with the
given tokens and uuid and a device hash `"python-client-" ++ rand`, where
`rand` models `os.urandom(4).hex()` and is passed as a parameter; the prior
file content is replaced. -/
def save_unfold_config (access_token refresh_token : String)
    (uuid : Option String) (rand : String) (_prior : ConfigFile) : ConfigFile :=
  some (some ⟨some access_token, some refresh_token, uuid,
    "python-client-" ++ rand⟩)

/-- `get_unfold_token` (lines 58-66): the stored access token, or `none`
when the file is missing or fails to parse (bare `except`) or the nested
key is absent. -/
def get_unfold_token : ConfigFile → Option String
  | some (some c) => c.token_access
  | some none => none
  | none => none

/-- `fold_status` (lines 130-133): `logged_in` is `token is not None`. -/
def fold_status (cfg : ConfigFile) : Bool :=
  (get_unfold_token cfg).isSome

-- ## OTP verification (src/server.py lines 105-128)

/-- The outcome of the verification POST as observed by `fold_verify`:
either some exception before the token check (network failure,
`raise_for_status`, `res.json()` failure), or the parsed `data` dict with
`access_token`, `refresh_token` and `user_meta.uuid`, each possibly
absent (`data.get` returns `None` for a missing key). -/
inductive VerifyResponse where
  | failure (msg : String)
  | parsed (access_token refresh_token uuid : Option String)
deriving DecidableEq, Repr

/-- Python truthiness of an optional string: `None` and `""` are falsy. -/
def truthy : Option String → Bool
  | none => false
  | some s => !(s == "")

/-- `if access and refresh:` in `fold_verify` (line 122). -/
def tokensPresent : VerifyResponse → Bool
  | .failure _ => false
  | .parsed a r _ => truthy a && truthy r

/-- The `access_token` of a parsed response, defaulting to `""`. -/
def respAccess : VerifyResponse → String
  | .failure _ => ""
  | .parsed a _ _ => a.getD ""

/-- The `refresh_token` of a parsed response, defaulting to `""`. -/
def respRefresh : VerifyResponse → String
  | .failure _ => ""
  | .parsed _ r _ => r.getD ""

/-- The `user_meta.uuid` of a parsed response. -/
def respUuid : VerifyResponse → Option String
  | .failure _ => none
  | .parsed _ _ u => u

/-- `fold_verify` (lines 105-128): on a parsed response with truthy access
and refresh tokens, writes the config file and returns success; otherwise
it raises `HTTPException(400, "Invalid response from Fold")`, which the
enclosing `except Exception` catches and re-raises wrapped as
`"Verification failed: ..."`.  Any earlier exception is wrapped the same
way.  Returns the HTTP result together with the config-file state after
the call. -/
def fold_verify (resp : VerifyResponse) (rand : String) (cfg : ConfigFile) :
    Except (ℕ × String) String × ConfigFile :=
  match resp with
  | .failure msg => (.error (400, "Verification failed: " ++ msg), cfg)
  | .parsed a r u =>
    if truthy a && truthy r then
      (.ok "success", save_unfold_config (a.getD "") (r.getD "") u rand cfg)
    else
      (.error (400, "Verification failed: 400: Invalid response from Fold"), cfg)

-- ## Transaction Reader (src/server.py lines 147-188) and Sync (190-198)

/-- One row of the `transactions` table, in the column order of the
`SELECT` on line 169. -/
structure TxRow where
  uuid : String
  amount : ℚ
  current_balance : ℚ
  timestamp : String
  type : String
  account : String
  merchant : String
deriving DecidableEq, Repr

/-- The dict built from a row on lines 174-182: the uniform record shape
`{uuid, amount, current_balance, timestamp, type, account, merchant}`. -/
structure Tx where
  uuid : String
  amount : ℚ
  current_balance : ℚ
  timestamp : String
  type : String
  account : String
  merchant : String
deriving DecidableEq, Repr

/-- Lines 174-182: project a fetched row into the result dict. -/
def projectRow (r : TxRow) : Tx :=
  ⟨r.uuid, r.amount, r.current_balance, r.timestamp, r.type, r.account, r.merchant⟩

/-- The readable state of the SQLite database file once it exists:
`corrupt` makes any query raise (caught by the `except` on line 184),
`noTable` means `sqlite_master` has no `transactions` table, `table rows`
is a well-formed `transactions` table holding `rows` in storage order. -/
inductive DBState where
  | corrupt
  | noTable
  | table (rows : List TxRow)
deriving DecidableEq, Repr

/-- `ORDER BY timestamp DESC`: row `a` may precede row `b` iff
`b.timestamp ≤ a.timestamp` (SQLite compares TEXT lexicographically). -/
def tsDesc (a b : TxRow) : Prop := b.timestamp ≤ a.timestamp

instance : DecidableRel tsDesc := fun a b =>
  inferInstanceAs (Decidable (b.timestamp ≤ a.timestamp))

instance : IsTotal TxRow tsDesc :=
  ⟨fun a b => (le_total a.timestamp b.timestamp).symm⟩

instance : IsTrans TxRow tsDesc :=
  ⟨fun _ _ _ hab hbc => le_trans hbc hab⟩

/-- The `SELECT ... ORDER BY timestamp DESC LIMIT 50` of line 169, as a
pure query over the stored rows (the sort is any stable realisation of the
SQL ordering). -/
def queryRecent (rows : List TxRow) : List TxRow :=
  (List.insertionSort tsDesc rows).take 50

/-- The environment `get_transactions` runs in: the DB file before the
call (`none` = missing), the result of `get_unfold_token()` on the current
config, and the DB file state after an opportunistic sync attempt, should
one happen (a failed sync that creates nothing is `dbAfterSync = none`;
the `except: pass` on lines 156-157 ignores the failure either way). -/
structure TxEnv where
  db : Option DBState
  token : Option String
  dbAfterSync : Option DBState

/-- Python truthiness of `get_unfold_token()` on line 150. -/
def tokenTruthy (t : Option String) : Bool :=
  match t with
  | none => false
  | some s => !(s == "")

/-- `get_transactions` (lines 147-188).  Returns the JSON result list
together with the number of sync-subprocess invocations made.  Faithful
shape: the outer `if not exists(DB) or token:` guards an inner
`if not exists(DB):` that actually runs the sync; existence is then
re-checked; a missing `transactions` table returns `[]`; any query error
is caught and returns `[]`; a well-formed table yields the top-50
projection.  Total: the body catches every read error, so the caller
never sees an exception. -/
def get_transactions (env : TxEnv) : List Tx × ℕ :=
  let afterSync : Option DBState × ℕ :=
    if env.db.isNone || tokenTruthy env.token then
      if env.db.isNone then (env.dbAfterSync, 1) else (env.db, 0)
    else (env.db, 0)
  match afterSync with
  | (none, syncs) => ([], syncs)
  | (some .corrupt, syncs) => ([], syncs)
  | (some .noTable, syncs) => ([], syncs)
  | (some (.table rows), syncs) => ((queryRecent rows).map projectRow, syncs)

/-- The exit of `subprocess.run([UNFOLD_BINARY, ...], check=True)`:
success, a non-zero exit (`CalledProcessError`), or any other failure such
as a missing binary (`FileNotFoundError`, an `OSError`). -/
inductive SyncOutcome where
  | success
  | calledProcessError
  | oserror (msg : String)
deriving DecidableEq, Repr

/-- `sync_transactions` (lines 190-198): success only when the tool exits
zero; a non-zero exit raises `HTTPException(500, "Failed to sync. ...")`;
any other failure raises `HTTPException(500, str(e))`. -/
def sync_transactions : SyncOutcome → Except (ℕ × String) String
  | .success => .ok "success"
  | .calledProcessError => .error (500, "Failed to sync. Ensure you are logged in.")
  | .oserror msg => .error (500, msg)

-- ## Portfolio Valuator (src/server.py lines 201-234)

/-- One entry appended to `portfolio` on lines 220-226.  `scheme_code` is
whatever value `holding["scheme_code"]` produced. -/
structure PricedHolding where
  scheme_code : PyVal
  scheme_name : String
  units : ℚ
  nav : ℚ
  current_value : ℚ

/-- The JSON object returned on lines 231-234. -/
structure PortfolioResult where
  portfolio : List PricedHolding
  total_value : PyNum

/-- The price-lookup oracle: the joint outcome of `requests.get` on
`api.mfapi.in/mf/{code}`, `resp.json()`, the truthiness and `"data"`
checks on line 215, `float(data["data"][0]["nav"])` and
`data["meta"]["scheme_name"]`.  `some (nav, name)` is a lookup that passes
all of them; `none` is any failure, all of which land in the `except` on
line 228 and skip the holding. -/
abbrev PriceLookup := PyVal → Option (ℚ × String)

/-- The `for holding in holdings:` loop of lines 208-229.  State threaded:
`total` is `total_value` (starts as the int `0`), `acc` is `portfolio`.
The accesses `holding["scheme_code"]` and `float(holding["units"])` on
lines 209-210 sit outside the `try`, so their errors propagate out of the
whole endpoint. -/
def get_portfolio_go (lookup : PriceLookup) :
    List PyVal → PyNum → List PricedHolding → Except PyErr PortfolioResult
  | [], total, acc => .ok ⟨acc, pyRoundNum total⟩
  | h :: rest, total, acc =>
    match getItem h "scheme_code" with
    | .error e => .error e
    | .ok code =>
      match getItem h "units" with
      | .error e => .error e
      | .ok uval =>
        match pyFloat uval with
        | .error e => .error e
        | .ok units =>
          match lookup code with
          | some (nav, name) =>
            get_portfolio_go lookup rest (.f (total.toQ + units * nav))
              (acc ++ [⟨code, name, units, nav, pyRound2 (units * nav)⟩])
          | none => get_portfolio_go lookup rest total acc

/-- `get_portfolio` (lines 201-234): load the holdings file, iterate over
the parsed value, and run the valuation loop. -/
def get_portfolio (lookup : PriceLookup) (fs : HoldingsFile) :
    Except PyErr PortfolioResult :=
  match pyIter (load_holdings fs) with
  | .error e => .error e
  | .ok holdings => get_portfolio_go lookup holdings (.i 0) []

-- ## Spec-side descriptions used to state the claims

/-- A well-formed holding as produced by the `POST /api/holdings` endpoint
(line 142): a scheme code and a numeric unit count. -/
structure Holding where
  scheme_code : String
  units : ℚ

/-- The JSON object `{"scheme_code": ..., "units": ...}` for a holding. -/
def embedHolding (h : Holding) : PyVal :=
  .pdict [("scheme_code", .pstr h.scheme_code), ("units", .pnum h.units)]

/-- The holdings whose price lookup succeeds, each paired with its
`(nav, scheme_name)`, in input order. -/
def successes (lookup : PriceLookup) (hs : List Holding) :
    List (Holding × ℚ × String) :=
  hs.filterMap fun h => (lookup (.pstr h.scheme_code)).map fun p => (h, p)

/-- The portfolio list the spec predicts: one priced entry per successful
holding, in input order, value rounded to 2 decimals. -/
def expectedPortfolio (lookup : PriceLookup) (hs : List Holding) :
    List PricedHolding :=
  (successes lookup hs).map fun x =>
    ⟨.pstr x.1.scheme_code, x.2.2, x.1.units, x.2.1, pyRound2 (x.1.units * x.2.1)⟩

/-- The sum of the un-rounded products `units * nav` over a success list. -/
def sumSucc (l : List (Holding × ℚ × String)) : ℚ :=
  (l.map fun x => x.1.units * x.2.1).sum

/-- The evolution of the `total_value` accumulator over a success list. -/
def accTotal : PyNum → List (Holding × ℚ × String) → PyNum
  | t, [] => t
  | t, x :: rest => accTotal (.f (t.toQ + x.1.units * x.2.1)) rest

-- ## Helper lemmas

theorem getItem_embed_code (h : Holding) :
    getItem (embedHolding h) "scheme_code" = .ok (.pstr h.scheme_code) := rfl

theorem getItem_embed_units (h : Holding) :
    getItem (embedHolding h) "units" = .ok (.pnum h.units) := rfl

theorem pyRound2_zero : pyRound2 0 = 0 := by
  norm_num [pyRound2, roundHalfEven]

theorem accTotal_f (l : List (Holding × ℚ × String)) :
    ∀ q : ℚ, accTotal (.f q) l = .f (q + sumSucc l) := by
  induction l with
  | nil => intro q; simp [accTotal, sumSucc]
  | cons x rest ih =>
    intro q
    simp only [accTotal, PyNum.toQ]
    rw [ih]
    simp [sumSucc, add_assoc]

theorem pyRoundNum_accTotal (l : List (Holding × ℚ × String)) :
    (pyRoundNum (accTotal (.i 0) l)).toQ = pyRound2 (sumSucc l) := by
  cases l with
  | nil => simp [accTotal, pyRoundNum, PyNum.toQ, sumSucc, pyRound2_zero]
  | cons x rest =>
    simp only [accTotal, PyNum.toQ]
    rw [accTotal_f]
    simp [pyRoundNum, PyNum.toQ, sumSucc]

/-- Loop invariant for the valuation loop: running it on well-formed
holdings from any accumulator state appends exactly the priced successful
holdings and accumulates their un-rounded values. -/
theorem get_portfolio_go_spec (lookup : PriceLookup) (hs : List Holding) :
    ∀ (total : PyNum) (acc : List PricedHolding),
    get_portfolio_go lookup (hs.map embedHolding) total acc =
      .ok ⟨acc ++ expectedPortfolio lookup hs,
           pyRoundNum (accTotal total (successes lookup hs))⟩ := by
  induction hs with
  | nil =>
    intro total acc
    simp [get_portfolio_go, expectedPortfolio, successes, accTotal]
  | cons h t ih =>
    intro total acc
    cases hl : lookup (.pstr h.scheme_code) with
    | some p =>
      obtain ⟨nav, name⟩ := p
      simp only [List.map_cons, get_portfolio_go, getItem_embed_code,
        getItem_embed_units, pyFloat, hl]
      rw [ih]
      simp [expectedPortfolio, successes, List.filterMap_cons, hl, accTotal,
        List.append_assoc]
    | none =>
      simp only [List.map_cons, get_portfolio_go, getItem_embed_code,
        getItem_embed_units, pyFloat, hl]
      rw [ih]
      simp [expectedPortfolio, successes, List.filterMap_cons, hl]

-- ## Claim theorems

/-- C1: for every holdings list loaded from the Holdings Store and every
assignment of price-lookup outcomes to scheme identifiers, `get_portfolio`
returns a portfolio containing exactly the holdings whose lookup
succeeded, in input order, each with `current_value = round(units*nav, 2)`,
and a total value numerically equal to the sum of the un-rounded products
over the successful holdings, rounded to 2 decimals; failed lookups appear
in neither the list nor the total. -/
theorem portfolio_valuation_spec (lookup : PriceLookup) (hs : List Holding) :
    ∃ r : PortfolioResult,
      get_portfolio lookup (save_holdings (.plist (hs.map embedHolding)) none) = .ok r ∧
      r.portfolio = expectedPortfolio lookup hs ∧
      r.total_value.toQ = pyRound2 (sumSucc (successes lookup hs)) := by
  refine ⟨⟨expectedPortfolio lookup hs,
    pyRoundNum (accTotal (.i 0) (successes lookup hs))⟩, ?_, rfl, ?_⟩
  · show get_portfolio_go lookup (hs.map embedHolding) (.i 0) [] = _
    rw [get_portfolio_go_spec]
    simp
  · exact pyRoundNum_accTotal _

/-- C2 (counterexample): with an empty loaded holdings list the endpoint
returns `total_value = 0` as a Python `int` (the accumulator starts as the
int literal `0` and `round` of an int is an int), not the floating-point
number `0.0` the claim states. -/
theorem portfolio_empty_counterexample :
    get_portfolio (fun _ => none) (save_holdings (.plist []) none) =
      .ok ⟨[], .i 0⟩ ∧ PyNum.i 0 ≠ PyNum.f 0 :=
  ⟨rfl, by decide⟩

/-- C2 (amended): `get_portfolio` on an empty loaded holdings list (an
empty saved list, or a missing holdings file, which loads as `[]`) returns
the empty portfolio and a total value that is the integer `0`, numerically
equal to `0.0` but serialized as the JSON integer `0`. -/
theorem portfolio_empty_amended (lookup : PriceLookup) :
    get_portfolio lookup (save_holdings (.plist []) none) = .ok ⟨[], .i 0⟩ ∧
    get_portfolio lookup none = .ok ⟨[], .i 0⟩ ∧
    (PyNum.i 0).toQ = 0 :=
  ⟨rfl, rfl, by norm_num [PyNum.toQ]⟩

/-- C3: saving a holdings list and loading it back returns exactly the
saved list, and the result of a save does not depend on the previously
persisted content (full replace, no merge). -/
theorem holdings_roundtrip (hs : List Holding) (prior prior2 : HoldingsFile) :
    load_holdings (save_holdings (.plist (hs.map embedHolding)) prior) =
      .plist (hs.map embedHolding) ∧
    save_holdings (.plist (hs.map embedHolding)) prior =
      save_holdings (.plist (hs.map embedHolding)) prior2 :=
  ⟨rfl, rfl⟩

/-- C4: `load_holdings` on a missing file and on a file whose content
fails to parse returns the empty Python list; it is a total function of
the file state, so it never raises (the bare `except` swallows the parse
failure). -/
theorem load_holdings_fail_open :
    load_holdings none = .plist [] ∧ load_holdings (some none) = .plist [] :=
  ⟨rfl, rfl⟩

/-- C5: `fold_status` reports not logged in when no token record exists,
and reports logged in immediately after `save_unfold_config` with
non-empty access and refresh tokens, because `get_unfold_token` then
returns the stored access token rather than `None`. -/
theorem login_status_spec (a r : String) (u : Option String) (rand : String)
    (prior : ConfigFile) (ha : a ≠ "") (hr : r ≠ "") :
    fold_status none = false ∧
    get_unfold_token (save_unfold_config a r u rand prior) = some a ∧
    fold_status (save_unfold_config a r u rand prior) = true :=
  ⟨rfl, rfl, rfl⟩

theorem login_status_spec_witness :
    ("tok" : String) ≠ "" ∧ ("ref" : String) ≠ "" ∧
    (fold_status none = false ∧
     get_unfold_token (save_unfold_config "tok" "ref" none "ab" none) = some "tok" ∧
     fold_status (save_unfold_config "tok" "ref" none "ab" none) = true) :=
  ⟨by decide, by decide,
   login_status_spec "tok" "ref" none "ab" none (by decide) (by decide)⟩

/-- C6: `get_transactions` never raises (it is a total function of its
environment); when the DB file is missing it makes exactly one
opportunistic sync attempt and, if the file is still missing afterwards,
returns the empty list; a DB without the `transactions` table, or any
read error, likewise yields the empty list. -/
theorem recent_fail_open (env : TxEnv) :
    (env.db = none →
      (get_transactions env).2 = 1 ∧
      (env.dbAfterSync = none → (get_transactions env).1 = [])) ∧
    (env.db = some .noTable → (get_transactions env).1 = []) ∧
    (env.db = some .corrupt → (get_transactions env).1 = []) := by
  obtain ⟨db, token, after⟩ := env
  refine ⟨fun hdb => ?_, fun hdb => ?_, fun hdb => ?_⟩ <;>
    simp only at hdb <;> subst hdb
  · cases after with
    | none => simp [get_transactions]
    | some s => cases s <;> simp [get_transactions]
  · cases htok : tokenTruthy token <;> simp [get_transactions, htok]
  · cases htok : tokenTruthy token <;> simp [get_transactions, htok]

theorem recent_fail_open_witness :
    (get_transactions ⟨none, none, none⟩).2 = 1 ∧
    (get_transactions ⟨none, none, none⟩).1 = [] ∧
    (get_transactions ⟨some .noTable, none, none⟩).1 = [] ∧
    (get_transactions ⟨some .corrupt, none, none⟩).1 = [] :=
  ⟨((recent_fail_open ⟨none, none, none⟩).1 rfl).1,
   ((recent_fail_open ⟨none, none, none⟩).1 rfl).2 rfl,
   (recent_fail_open ⟨some .noTable, none, none⟩).2.1 rfl,
   (recent_fail_open ⟨some .corrupt, none, none⟩).2.2 rfl⟩

/-- C7: when the DB file holds a well-formed `transactions` table,
`get_transactions` returns the top-50 query result: at most 50 records,
ordered by timestamp descending, each the projection of a stored row into
the uniform `{uuid, amount, current_balance, timestamp, type, account,
merchant}` shape. -/
theorem recent_query_spec (env : TxEnv) (rows : List TxRow)
    (hdb : env.db = some (.table rows)) :
    (get_transactions env).1 = (queryRecent rows).map projectRow ∧
    (get_transactions env).1.length ≤ 50 ∧
    List.Pairwise (fun a b : Tx => b.timestamp ≤ a.timestamp)
      (get_transactions env).1 ∧
    ∀ t ∈ (get_transactions env).1, ∃ row ∈ rows, t = projectRow row := by
  obtain ⟨db, token, after⟩ := env
  simp only at hdb
  subst hdb
  have hres : (get_transactions ⟨some (.table rows), token, after⟩).1 =
      (queryRecent rows).map projectRow := by
    cases htok : tokenTruthy token <;> simp [get_transactions, htok]
  have hsorted : List.Pairwise tsDesc (queryRecent rows) :=
    (List.sorted_insertionSort tsDesc rows).sublist
      (List.take_sublist 50 (List.insertionSort tsDesc rows))
  refine ⟨hres, ?_, ?_, ?_⟩
  · rw [hres, List.length_map]
    exact List.length_take_le 50 (List.insertionSort tsDesc rows)
  · rw [hres]
    exact (List.pairwise_map).2 hsorted
  · intro t ht
    rw [hres] at ht
    obtain ⟨row, hrow, rfl⟩ := List.mem_map.1 ht
    exact ⟨row, (List.mem_insertionSort tsDesc).1 (List.mem_of_mem_take hrow), rfl⟩

theorem recent_query_spec_witness :
    (get_transactions ⟨some (.table [⟨"u1", 10, 100, "2024-01-02", "debit", "hdfc", "shop"⟩]),
        none, none⟩).1 =
      (queryRecent [⟨"u1", 10, 100, "2024-01-02", "debit", "hdfc", "shop"⟩]).map projectRow ∧
    (get_transactions ⟨some (.table [⟨"u1", 10, 100, "2024-01-02", "debit", "hdfc", "shop"⟩]),
        none, none⟩).1.length ≤ 50 ∧
    List.Pairwise (fun a b : Tx => b.timestamp ≤ a.timestamp)
      (get_transactions ⟨some (.table [⟨"u1", 10, 100, "2024-01-02", "debit", "hdfc", "shop"⟩]),
        none, none⟩).1 ∧
    ∀ t ∈ (get_transactions ⟨some (.table [⟨"u1", 10, 100, "2024-01-02", "debit", "hdfc", "shop"⟩]),
        none, none⟩).1,
      ∃ row ∈ [(⟨"u1", 10, 100, "2024-01-02", "debit", "hdfc", "shop"⟩ : TxRow)],
        t = projectRow row :=
  recent_query_spec ⟨some (.table [⟨"u1", 10, 100, "2024-01-02", "debit", "hdfc", "shop"⟩]),
    none, none⟩ [⟨"u1", 10, 100, "2024-01-02", "debit", "hdfc", "shop"⟩] rfl

/-- C8: the explicit sync endpoint succeeds exactly when the external tool
exits with success; a non-zero exit or a failure to locate/execute the
tool surfaces as an HTTP 500 error response to the caller. -/
theorem sync_trigger_spec (o : SyncOutcome) :
    ((sync_transactions o).isOk = true ↔ o = .success) ∧
    ∀ s d, sync_transactions o = .error (s, d) → s = 500 := by
  cases o with
  | success =>
    refine ⟨⟨fun _ => rfl, fun _ => rfl⟩, ?_⟩
    intro s d h
    simp [sync_transactions] at h
  | calledProcessError =>
    refine ⟨by simp [sync_transactions, Except.isOk, Except.toBool], ?_⟩
    intro s d h
    simp only [sync_transactions, Except.error.injEq, Prod.mk.injEq] at h
    exact h.1.symm
  | oserror msg =>
    refine ⟨by simp [sync_transactions, Except.isOk, Except.toBool], ?_⟩
    intro s d h
    simp only [sync_transactions, Except.error.injEq, Prod.mk.injEq] at h
    exact h.1.symm

theorem sync_trigger_spec_witness :
    (sync_transactions .success).isOk = true ∧ (500 : ℕ) = 500 :=
  ⟨(sync_trigger_spec .success).1.2 rfl,
   (sync_trigger_spec .calledProcessError).2 500
     "Failed to sync. Ensure you are logged in." rfl⟩

/-- C9: `fold_verify` reports success exactly when both tokens in the
response are present and non-empty; on every error path the persisted
token record is unchanged, and it is (re)written exactly when both tokens
are present, with the tokens from the response. -/
theorem verify_no_partial_write (resp : VerifyResponse) (rand : String)
    (cfg : ConfigFile) :
    ((fold_verify resp rand cfg).1.isOk = tokensPresent resp) ∧
    (tokensPresent resp = false → (fold_verify resp rand cfg).2 = cfg) ∧
    (tokensPresent resp = true →
      (fold_verify resp rand cfg).2 =
        save_unfold_config (respAccess resp) (respRefresh resp) (respUuid resp)
          rand cfg) := by
  cases resp with
  | failure m =>
    refine ⟨rfl, fun _ => rfl, fun h => ?_⟩
    simp [tokensPresent] at h
  | parsed a r u =>
    cases hp : truthy a && truthy r with
    | true =>
      refine ⟨?_, fun h => ?_, fun _ => ?_⟩
      · simp [fold_verify, hp, tokensPresent, Except.isOk, Except.toBool]
      · simp [tokensPresent, hp] at h
      · cases a with
        | none => simp [truthy] at hp
        | some a' =>
          cases r with
          | none => simp [truthy] at hp
          | some r' => simp [fold_verify, hp, respAccess, respRefresh, respUuid]
    | false =>
      refine ⟨?_, fun _ => ?_, fun h => ?_⟩
      · simp [fold_verify, hp, tokensPresent, Except.isOk, Except.toBool]
      · simp [fold_verify, hp]
      · simp [tokensPresent, hp] at h

theorem verify_no_partial_write_witness :
    ((fold_verify (.parsed (some "A") (some "R") (some "U")) "ab" none).1.isOk =
      tokensPresent (.parsed (some "A") (some "R") (some "U"))) ∧
    (fold_verify (.parsed none none none) "ab" none).2 = none ∧
    (fold_verify (.parsed (some "A") (some "R") (some "U")) "ab" none).2 =
      save_unfold_config "A" "R" (some "U") "ab" none :=
  ⟨(verify_no_partial_write (.parsed (some "A") (some "R") (some "U")) "ab" none).1,
   (verify_no_partial_write (.parsed none none none) "ab" none).2.1 rfl,
   (verify_no_partial_write (.parsed (some "A") (some "R") (some "U")) "ab" none).2.2 rfl⟩

/-- C10: `get_portfolio` is total on holdings files whose entries are
objects with a `scheme_code` key and numeric `units`, but content that
parses as JSON while violating that shape makes it raise: a list of
strings raises `TypeError` at `holding["scheme_code"]`, and a holding
whose `units` is a non-numeric string raises `ValueError` at
`float(holding["units"])` — both accesses sit outside the per-holding
`try/except`, so nothing catches them. -/
theorem portfolio_shape_precondition :
    (∀ (lookup : PriceLookup) (hs : List Holding),
      ∃ r, get_portfolio lookup (save_holdings (.plist (hs.map embedHolding)) none) =
        .ok r) ∧
    get_portfolio (fun _ => none) (save_holdings (.plist [.pstr "oops"]) none) =
      .error .typeError ∧
    get_portfolio (fun _ => none)
      (save_holdings
        (.plist [.pdict [("scheme_code", .pstr "120503"), ("units", .pstr "abc")]])
        none) =
      .error .valueError := by
  refine ⟨fun lookup hs => ?_, rfl, rfl⟩
  exact ⟨_, get_portfolio_go_spec lookup hs (.i 0) []⟩
